import Mathlib

/-!
# Verification of the PySpark ETL pipeline
  (`building_an_etl_pipeline_using_pyspark.py`)

Shallow embedding of the script's data model and transformation steps.
A dataframe is a `List` of rows; each transformation of the script becomes
a pure function on such lists, in the order the script applies them:

1. `df.fillna({"ISO2": "Unknown"})`                       → `fillnaISO2`
2. `df.na.drop(subset=temperatre_columns, how='all')`     → `dropAllNullTemps`
3. `df.selectExpr("ObjectId","Country","ISO3", stack(62, 'F1961', F1961,
   …, 'F2022', F2022) as (Year, Temperature))`            → `reshape`
4. `df_pivot.withColumn("Year", expr("int(substring(Year, 2, 4))"))`
                                                          → `convertYear`
5. `df_pivot.write.mode("overwrite").parquet(...)` /
   `spark.read.parquet(...)`                              → `writeParquetOverwrite` / `readParquet`

Temperature values are only ever carried through (never computed with), so
rows are polymorphic in the temperature carrier type `α`.  Nullable cells
are `Option`s; SQL `NULL` is `none`.  Year labels are lists of characters.
-/

/-- An input row of the CSV: identity columns `ObjectId, Country, ISO2, ISO3`
and the 62 value columns `F1961`..`F2022` (index `i : Fin 62` stands for
column `F(1961+i)`).  Every cell is nullable, as with CSV schema inference. -/
structure Row (α : Type) where
  objectId : Option Int
  country : Option String
  iso2 : Option String
  iso3 : Option String
  temps : Fin 62 → Option α
  deriving DecidableEq

/-- A row of `df_pivot` right after the `stack` select: the three selected
identity columns plus the `(Year, Temperature)` pair produced by `stack`.
`ISO2` is not in the `selectExpr` list, so it has no field here. -/
structure LongRow (α : Type) where
  objectId : Option Int
  country : Option String
  iso3 : Option String
  year : List Char
  temperature : Option α
  deriving DecidableEq

/-- A row of `df_pivot` after `withColumn("Year", int(substring(Year, 2, 4)))`:
the `Year` column is now a (nullable) integer. -/
structure FinalRow (α : Type) where
  objectId : Option Int
  country : Option String
  iso3 : Option String
  year : Option Int
  temperature : Option α
  deriving DecidableEq

/-- `df.fillna({"ISO2": "Unknown"})` on one row: a null `ISO2` becomes the
string `"Unknown"`; a non-null `ISO2` and every other column are untouched. -/
def fillnaISO2Row {α : Type} (r : Row α) : Row α :=
  { r with iso2 := some (r.iso2.getD "Unknown") }

/-- `df.fillna({"ISO2": "Unknown"})` on the whole dataframe. -/
def fillnaISO2 {α : Type} (df : List (Row α)) : List (Row α) :=
  df.map fillnaISO2Row

/-- `temperatre_columns = [col for col in df.columns if col.startswith('F')]`
selects exactly the 62 `F`-columns (no identity column name starts with `F`),
and `na.drop(subset=…, how='all')` keeps a row iff at least one of them is
non-null.  This is that keep-condition. -/
def hasAnyTemp {α : Type} (r : Row α) : Bool :=
  (List.finRange 62).any fun i => (r.temps i).isSome

/-- `df.na.drop(subset=temperatre_columns, how='all')`: drop the rows whose
62 `F`-columns are all null. -/
def dropAllNullTemps {α : Type} (df : List (Row α)) : List (Row α) :=
  df.filter hasAnyTemp

/-- The year label the script generates for column index `i`:
`f"'F{1961 + i}'"`, i.e. the character `F` followed by the decimal digits
of `1961 + i`. -/
def yearLabel (i : Fin 62) : List Char :=
  'F' :: Nat.toDigits 10 (1961 + i)

/-- One output row of the `stack` expression: identity columns
`ObjectId, Country, ISO3` carried through, `Year` set to the generated
label `'F{1961+i}'`, `Temperature` set to the value of column `F{1961+i}`. -/
def mkLongRow {α : Type} (r : Row α) (i : Fin 62) : LongRow α :=
  { objectId := r.objectId
    country := r.country
    iso3 := r.iso3
    year := yearLabel i
    temperature := r.temps i }

/-- `stack(62, 'F1961', F1961, …, 'F2022', F2022)` on one row: 62 output
rows, one per year column, in the listed (ascending-year) order. -/
def reshapeRow {α : Type} (r : Row α) : List (LongRow α) :=
  (List.finRange 62).map (mkLongRow r)

/-- The whole `df.selectExpr(..., stack(...))` step: each row of the input
contributes its 62 stacked rows, in input order. -/
def reshape {α : Type} (df : List (Row α)) : List (LongRow α) :=
  df.flatMap reshapeRow

/-- Spark SQL `substring(s, pos, len)` for a positive `pos`: substring
starting at 1-based position `pos`, of length `len`. -/
def sparkSubstring (s : List Char) (pos len : Nat) : List Char :=
  (s.drop (pos - 1)).take len

/-- Value of a decimal digit character, `none` on a non-digit. -/
def digitVal (c : Char) : Option Nat :=
  if c.isDigit then some (c.toNat - 48) else none

/-- Accumulating decimal parse of a digit string; `none` as soon as a
non-digit appears. -/
def parseNatAux : List Char → Nat → Option Nat
  | [], acc => some acc
  | c :: rest, acc =>
    match digitVal c with
    | some d => parseNatAux rest (acc * 10 + d)
    | none => none

/-- Decimal parse of a non-empty digit string; `none` on the empty string
or on any non-digit character. -/
def parseDigits : List Char → Option Nat
  | [] => none
  | c :: rest =>
    match digitVal c with
    | some d => parseNatAux rest d
    | none => none

/-- Spark SQL `cast(s as int)` in default (non-ANSI) mode, restricted to the
shapes that can reach it here (no surrounding blanks, no decimal point:
the casted strings are 4-character substrings of year labels): an optional
sign followed by at least one decimal digit yields that integer; anything
else yields `NULL`.  The cast never raises. -/
def castInt (s : List Char) : Option Int :=
  if s.head? = some '-' then (parseDigits (s.drop 1)).map fun n => -(n : Int)
  else if s.head? = some '+' then (parseDigits (s.drop 1)).map fun n => (n : Int)
  else (parseDigits s).map fun n => (n : Int)

/-- `expr("int(substring(Year, 2, 4))")`: take characters 2..5 of the label
and cast them to an integer (nullable, never raising). -/
def parseYearLabel (s : List Char) : Option Int :=
  castInt (sparkSubstring s 2 4)

/-- The well-formedness pattern of the spec: one letter followed by exactly
four decimal digits. -/
def isYearLabel : List Char → Bool
  | [c, d1, d2, d3, d4] => c.isAlpha && d1.isDigit && d2.isDigit && d3.isDigit && d4.isDigit
  | _ => false

/-- `withColumn("Year", expr("int(substring(Year, 2, 4))"))` on one row:
only the `Year` column changes, replaced by its parsed integer value. -/
def convertYearRow {α : Type} (lr : LongRow α) : FinalRow α :=
  { objectId := lr.objectId
    country := lr.country
    iso3 := lr.iso3
    year := parseYearLabel lr.year
    temperature := lr.temperature }

/-- The `withColumn` step on the whole dataframe. -/
def convertYear {α : Type} (df : List (LongRow α)) : List (FinalRow α) :=
  df.map convertYearRow

/-- The full Transform phase in the script's order: fill `ISO2`, drop
all-null rows, reshape wide-to-long, convert `Year` to integer. -/
def pipelineTransform {α : Type} (df : List (Row α)) : List (FinalRow α) :=
  convertYear (reshape (dropAllNullTemps (fillnaISO2 df)))

/-- Modelled from the spec: the columnar store at the fixed output path.
The parquet write/read themselves are framework calls not present in this
repository's source; per the spec's Load stage they persist a table and
read it back faithfully.  The store holds the table last written, if any. -/
def Storage (α : Type) : Type := Option (List (FinalRow α))

/-- Modelled from the spec: `df_pivot.write.mode("overwrite").parquet(path)`
— overwrite mode discards whatever the store held and replaces it with the
written table (no append or merge). -/
def writeParquetOverwrite {α : Type} (_st : Storage α) (df : List (FinalRow α)) :
    Storage α :=
  some df

/-- Modelled from the spec: `spark.read.parquet(path)` returns the stored
table, when one was written. -/
def readParquet {α : Type} (st : Storage α) : Option (List (FinalRow α)) :=
  st

/-- One full run of the pipeline against a store: transform the input and
write the result over the output path. -/
def runPipeline {α : Type} (input : List (Row α)) (st : Storage α) : Storage α :=
  writeParquetOverwrite st (pipelineTransform input)

/-- Two concrete input rows differing only in `ISO2` (used to exhibit that
the reshape does not carry `ISO2` through). -/
def rowIsoA : Row Int :=
  { objectId := some 1, country := some "A", iso2 := some "AA",
    iso3 := some "AAA", temps := fun _ => some 0 }

/-- Same as `rowIsoA` but with `ISO2 = "BB"`. -/
def rowIsoB : Row Int :=
  { rowIsoA with iso2 := some "BB" }

/-- A concrete input row whose value columns are only partially null:
column `F1961` holds `3`, all the others are null. -/
def rowMixed : Row Int :=
  { objectId := some 7, country := some "C", iso2 := none,
    iso3 := some "CCC", temps := fun i => if i.val = 0 then some 3 else none }

/-- A concrete input row with all value columns populated. -/
def rowFull : Row Int :=
  { objectId := some 2, country := some "D", iso2 := some "DD",
    iso3 := some "DDD", temps := fun i => some (i.val : Int) }

/-! ## Helper lemmas -/

/-- Each generated label `'F{1961+i}'` parses to the integer `1961 + i`. -/
theorem parseYearLabel_yearLabel :
    ∀ i : Fin 62, parseYearLabel (yearLabel i) = some ((1961 + (i : Nat) : Nat) : Int) := by
  decide

/-- Each generated label matches the letter-plus-four-digits pattern. -/
theorem isYearLabel_yearLabel : ∀ i : Fin 62, isYearLabel (yearLabel i) = true := by
  decide

/-- The reshape of any dataframe has `62 ·` as many rows. -/
theorem reshape_length {α : Type} (l : List (Row α)) :
    (reshape l).length = l.length * 62 := by
  induction l with
  | nil => rfl
  | cons r rest ih =>
      simp only [reshape, List.flatMap_cons, List.length_append, reshapeRow,
        List.length_map, List.length_finRange, List.length_cons] at *
      omega

/-- Every row of a reshaped dataframe is the stack of some input row at
some column index. -/
theorem mem_reshape {α : Type} {df : List (Row α)} {lr : LongRow α}
    (h : lr ∈ reshape df) : ∃ r ∈ df, ∃ i : Fin 62, lr = mkLongRow r i := by
  simp only [reshape, List.mem_flatMap, reshapeRow, List.mem_map,
    List.mem_finRange, true_and] at h
  obtain ⟨r, hr, i, hi⟩ := h
  exact ⟨r, hr, i, hi.symm⟩

/-! ## Claim theorems -/

/-- C1: a surviving input row (at least one non-null value column)
contributes exactly its 62 stacked rows to the reshaped output, an all-null
row is removed by the drop and contributes none, and the total reshaped
row count is (surviving rows) × 62. -/
theorem C1_reshape_row_count {α : Type} (df : List (Row α)) :
    reshape (dropAllNullTemps df)
        = (df.map fun r => if hasAnyTemp r then reshapeRow r else []).flatten
      ∧ (reshape (dropAllNullTemps df)).length = (dropAllNullTemps df).length * 62
      ∧ ∀ r : Row α, (reshapeRow r).length = 62 := by
  refine ⟨?_, reshape_length _, fun r => by simp [reshapeRow]⟩
  induction df with
  | nil => rfl
  | cons r rest ih =>
      by_cases h : hasAnyTemp r <;>
        simp [dropAllNullTemps, reshape, List.filter_cons, h] at ih ⊢ <;>
        simpa [dropAllNullTemps, reshape] using ih

/-- C2 counterexample: the reshape does not carry `ISO2` through.  Two
input rows that differ only in their (non-null) `ISO2` values produce
identical reshaped outputs, both before and after the `Year` conversion,
so no output record determines the input's `ISO2`. -/
theorem C2_iso2_not_carried :
    rowIsoA.iso2 = some "AA" ∧ rowIsoB.iso2 = some "BB"
      ∧ rowIsoA.objectId = rowIsoB.objectId ∧ rowIsoA.country = rowIsoB.country
      ∧ rowIsoA.iso3 = rowIsoB.iso3 ∧ rowIsoA.temps = rowIsoB.temps
      ∧ reshapeRow rowIsoA = reshapeRow rowIsoB
      ∧ convertYear (reshapeRow rowIsoA) = convertYear (reshapeRow rowIsoB) := by
  refine ⟨rfl, rfl, rfl, rfl, rfl, rfl, rfl, rfl⟩

/-- C2 (amended): every output record of the reshape carries the identity
columns `ObjectId`, `Country` and `ISO3` through unchanged, plus the year
label and the nullable `Temperature`; after the conversion step its `Year`
is the integer `1961 + i`.  `ISO2` is omitted by the select list. -/
theorem C2_identity_carried {α : Type} (r : Row α) (i : Fin 62) :
    (mkLongRow r i).objectId = r.objectId
      ∧ (mkLongRow r i).country = r.country
      ∧ (mkLongRow r i).iso3 = r.iso3
      ∧ (mkLongRow r i).temperature = r.temps i
      ∧ (convertYearRow (mkLongRow r i)).year = some ((1961 + (i : Nat) : Nat) : Int)
      ∧ mkLongRow r i ∈ reshapeRow r := by
  refine ⟨rfl, rfl, rfl, rfl, ?_, ?_⟩
  · show parseYearLabel (yearLabel i) = _
    exact parseYearLabel_yearLabel i
  · exact List.mem_map_of_mem (mkLongRow r) (List.mem_finRange i)

/-- C3 counterexample: the label `"F19"` does not match the
one-letter-prefix + 4-digit pattern, yet the year-parsing step does not
raise any error on it — it silently coerces it to the integer `19`. -/
theorem C3_malformed_coerced :
    isYearLabel ['F', '1', '9'] = false
      ∧ parseYearLabel ['F', '1', '9'] = some 19 := by
  decide

/-- C3 (amended): a label that does not match the pattern is not raised as
an error: the parsing step evaluates totally on every label (the conversion
keeps every row), silently coercing — a non-matching label whose characters
2..5 form digits yields that number (`"F196"` yields `196`), and one whose
substring is not numeric yields null (`"Year"` yields null). -/
theorem C3_no_error_branch {α : Type} (df : List (LongRow α)) :
    (convertYear df).length = df.length
      ∧ (∀ lr : LongRow α, (convertYearRow lr).temperature = lr.temperature)
      ∧ isYearLabel ['F', '1', '9', '6'] = false
      ∧ parseYearLabel ['F', '1', '9', '6'] = some 196
      ∧ isYearLabel ['Y', 'e', 'a', 'r'] = false
      ∧ parseYearLabel ['Y', 'e', 'a', 'r'] = none := by
  exact ⟨by simp [convertYear], fun lr => rfl, by decide, by decide, by decide, by decide⟩

/-- C4: a well-formed label — one letter followed by four decimal digits —
parses to the four-digit integer obtained by stripping the prefix letter. -/
theorem C4_parse_wellformed (c d1 d2 d3 d4 : Char)
    (hc : c.isAlpha = true) (h1 : d1.isDigit = true) (h2 : d2.isDigit = true)
    (h3 : d3.isDigit = true) (h4 : d4.isDigit = true) :
    isYearLabel [c, d1, d2, d3, d4] = true
      ∧ parseYearLabel [c, d1, d2, d3, d4]
          = some (((d1.toNat - 48) * 1000 + (d2.toNat - 48) * 100
                    + (d3.toNat - 48) * 10 + (d4.toNat - 48) : Nat) : Int) := by
  constructor
  · simp [isYearLabel, hc, h1, h2, h3, h4]
  · have hne : d1 ≠ '-' := by
      intro he; rw [he] at h1; exact absurd h1 (by decide)
    have hne' : d1 ≠ '+' := by
      intro he; rw [he] at h1; exact absurd h1 (by decide)
    show castInt [d1, d2, d3, d4] = _
    rw [castInt]
    rw [if_neg (by simp [hne]), if_neg (by simp [hne'])]
    simp only [parseDigits, parseNatAux, digitVal, h1, h2, h3, h4, if_true]
    refine congrArg some (congrArg _ ?_)
    ring

/-- Witness for C4 at the spec's own examples: `"F1961"` parses to `1961`
(and the formula of the theorem evaluates to `1961` there). -/
theorem C4_parse_wellformed_witness :
    isYearLabel ['F', '1', '9', '6', '1'] = true
      ∧ parseYearLabel ['F', '1', '9', '6', '1']
          = some ((('1'.toNat - 48) * 1000 + ('9'.toNat - 48) * 100
                    + ('6'.toNat - 48) * 10 + ('1'.toNat - 48) : Nat) : Int) :=
  C4_parse_wellformed 'F' '1' '9' '6' '1'
    (by decide) (by decide) (by decide) (by decide) (by decide)

/-- C5: the fill step maps every row's `ISO2` to `"Unknown"` exactly when it
was null (`Option.getD` keeps a present value and substitutes `"Unknown"`
for `none`), and leaves `ObjectId`, `Country`, `ISO3` and all 62 value
columns of every row unchanged; no row is added or removed. -/
theorem C5_fillna_iso2 {α : Type} (df : List (Row α)) (r : Row α) :
    (fillnaISO2 df).length = df.length
      ∧ fillnaISO2 df = df.map fillnaISO2Row
      ∧ (fillnaISO2Row r).iso2 = some (r.iso2.getD "Unknown")
      ∧ (fillnaISO2Row r).objectId = r.objectId
      ∧ (fillnaISO2Row r).country = r.country
      ∧ (fillnaISO2Row r).iso3 = r.iso3
      ∧ (fillnaISO2Row r).temps = r.temps := by
  exact ⟨by simp [fillnaISO2], rfl, rfl, rfl, rfl, rfl, rfl⟩

/-- C6: a row with at least one non-null value column survives the drop and
still yields exactly 62 stacked rows; each stacked row's `Temperature` is
exactly the corresponding value column — in particular null where that
column was null — and the `Year` conversion keeps that value. -/
theorem C6_partial_nulls {α : Type} (r : Row α) (h : hasAnyTemp r = true) :
    dropAllNullTemps [r] = [r]
      ∧ (reshapeRow r).length = 62
      ∧ ∀ i : Fin 62,
          mkLongRow r i ∈ reshapeRow r
            ∧ (mkLongRow r i).temperature = r.temps i
            ∧ (convertYearRow (mkLongRow r i)).temperature = r.temps i := by
  refine ⟨by simp [dropAllNullTemps, List.filter, h], by simp [reshapeRow], fun i => ?_⟩
  exact ⟨List.mem_map_of_mem (mkLongRow r) (List.mem_finRange i), rfl, rfl⟩

/-- Witness for C6 at a concrete row whose only non-null value column is
`F1961`: the row survives the drop and its stacked block behaves as stated. -/
theorem C6_partial_nulls_witness :
    hasAnyTemp rowMixed = true
      ∧ (dropAllNullTemps [rowMixed] = [rowMixed]
          ∧ (reshapeRow rowMixed).length = 62
          ∧ ∀ i : Fin 62,
              mkLongRow rowMixed i ∈ reshapeRow rowMixed
                ∧ (mkLongRow rowMixed i).temperature = rowMixed.temps i
                ∧ (convertYearRow (mkLongRow rowMixed i)).temperature = rowMixed.temps i) :=
  ⟨by decide, C6_partial_nulls rowMixed (by decide)⟩

/-- C7: writing the reshaped table over the store and re-reading it returns
exactly the written table, hence the same rows and the same row count (and
the same schema, both reads being tables of `FinalRow`). -/
theorem C7_roundtrip {α : Type} (st : Storage α) (df : List (FinalRow α)) :
    readParquet (writeParquetOverwrite st df) = some df
      ∧ ((readParquet (writeParquetOverwrite st df)).getD []).length = df.length := by
  exact ⟨rfl, rfl⟩

/-- C8: one full run writes exactly the transform of its input, regardless
of what the store held before (overwrite keeps no prior output), so two
runs on identical input leave identical stores and re-running is
idempotent. -/
theorem C8_deterministic {α : Type} (input : List (Row α)) (st st' : Storage α) :
    runPipeline input st = runPipeline input st'
      ∧ runPipeline input (runPipeline input st) = runPipeline input st
      ∧ readParquet (runPipeline input st) = some (pipelineTransform input) := by
  exact ⟨rfl, rfl, rfl⟩

/-- C9: the 62 converted rows of each surviving input row carry the years
`1961`..`2022` exactly once each, in ascending order (their `Year` column
reads, in order, `some 1961, …, some 2022`), and every `Year` value in the
whole transformed output lies in `1961..2022`. -/
theorem C9_years_block {α : Type} (df : List (Row α)) (r : Row α) :
    (convertYear (reshapeRow r)).map FinalRow.year
        = (List.finRange 62).map (fun i : Fin 62 => some ((1961 + i.val : Nat) : Int))
      ∧ ∀ fr ∈ pipelineTransform df, ∃ y : Int, fr.year = some y ∧ 1961 ≤ y ∧ y ≤ 2022 := by
  constructor
  · simp only [convertYear, reshapeRow, List.map_map]
    refine List.map_congr_left fun i _ => ?_
    show (convertYearRow (mkLongRow r i)).year = _
    exact parseYearLabel_yearLabel i
  · intro fr hfr
    simp only [pipelineTransform, convertYear, List.mem_map] at hfr
    obtain ⟨lr, hlr, rfl⟩ := hfr
    obtain ⟨r', _, i, rfl⟩ := mem_reshape hlr
    refine ⟨((1961 + (i : Nat) : Nat) : Int), ?_, ?_, ?_⟩
    · show parseYearLabel (yearLabel i) = _
      exact parseYearLabel_yearLabel i
    · have := i.isLt; push_cast; omega
    · have := i.isLt; push_cast; omega

/-- Witness for C9 at a concrete one-row input with all value columns set. -/
theorem C9_years_block_witness :
    (convertYear (reshapeRow rowFull)).map FinalRow.year
        = (List.finRange 62).map (fun i : Fin 62 => some ((1961 + i.val : Nat) : Int))
      ∧ ∀ fr ∈ pipelineTransform [rowFull],
          ∃ y : Int, fr.year = some y ∧ 1961 ≤ y ∧ y ≤ 2022 :=
  C9_years_block [rowFull] rowFull

/-- C10: every `Year` cell the parsing step ever sees is one of the 62
program-generated labels `'F1961'..'F2022'` — so it matches the pattern and
parses to some integer; no malformed label can reach the parse. -/
theorem C10_no_malformed_labels {α : Type} (df : List (Row α)) (lr : LongRow α)
    (h : lr ∈ reshape (dropAllNullTemps (fillnaISO2 df))) :
    (∃ i : Fin 62, lr.year = yearLabel i)
      ∧ isYearLabel lr.year = true
      ∧ ∃ n : Int, parseYearLabel lr.year = some n := by
  obtain ⟨r, _, i, rfl⟩ := mem_reshape h
  exact ⟨⟨i, rfl⟩, isYearLabel_yearLabel i, ⟨_, parseYearLabel_yearLabel i⟩⟩

/-- Witness for C10 at a concrete one-row input: the first stacked row of
that input is in the reshaped output and its label is well-formed. -/
theorem C10_no_malformed_labels_witness :
    mkLongRow (fillnaISO2Row rowFull) 0 ∈ reshape (dropAllNullTemps (fillnaISO2 [rowFull]))
      ∧ ((∃ i : Fin 62, (mkLongRow (fillnaISO2Row rowFull) 0).year = yearLabel i)
          ∧ isYearLabel (mkLongRow (fillnaISO2Row rowFull) 0).year = true
          ∧ ∃ n : Int, parseYearLabel (mkLongRow (fillnaISO2Row rowFull) 0).year = some n) :=
  ⟨by decide, C10_no_malformed_labels [rowFull] _ (by decide)⟩
